import Mathlib

/-!
Verification of the DomainFlow Node.js SDK (`src/index.js`) against its
specification.  The SDK's logic is embedded shallowly:

* `sha256`, `hmacSha256`, `hexEncode` model Node's
  `crypto.createHmac('sha256', secret).update(payload).digest('hex')`
  (FIPS 180-4 SHA-256 and RFC 2104 HMAC over UTF-8 bytes, lowercase hex).
* `verifySignature` is `WebhooksResource.verifySignature`.
* `Json`, `requestOutcome` model `DomainFlow._request`'s normalisation of
  the fetch outcome into either the decoded body or a `DomainFlowError`.
* `mkDomainFlow` models the `DomainFlow` constructor.
* `buildRequest` models the request assembly in `_request`.
* `domainsListPath` models the query-string construction in
  `DomainsResource.list`.

JavaScript truthiness, where the source relies on it (`if (!apiKey)`,
`if (params.tenantId)`, `json.error || ...`, `if (data)`), is modelled
explicitly by `jsTruthyStr`, `jsTruthyOptStr` and `jsTruthy`.
-/

/-- Truncate to a 32-bit word, as all SHA-256 arithmetic is modulo 2^32. -/
def w32 (n : Nat) : Nat := n % 4294967296

/-- Right rotation of a 32-bit word. -/
def rotr (x n : Nat) : Nat := w32 ((x >>> n) ||| (x <<< (32 - n)))

/-- SHA-256 Ch function. -/
def shaCh (x y z : Nat) : Nat := (x &&& y) ^^^ ((w32 (4294967295 - x)) &&& z)

/-- SHA-256 Maj function. -/
def shaMaj (x y z : Nat) : Nat := (x &&& y) ^^^ (x &&& z) ^^^ (y &&& z)

/-- SHA-256 big sigma 0. -/
def bigSigma0 (x : Nat) : Nat := (rotr x 2) ^^^ (rotr x 13) ^^^ (rotr x 22)

/-- SHA-256 big sigma 1. -/
def bigSigma1 (x : Nat) : Nat := (rotr x 6) ^^^ (rotr x 11) ^^^ (rotr x 25)

/-- SHA-256 small sigma 0. -/
def smallSigma0 (x : Nat) : Nat := (rotr x 7) ^^^ (rotr x 18) ^^^ (x >>> 3)

/-- SHA-256 small sigma 1. -/
def smallSigma1 (x : Nat) : Nat := (rotr x 17) ^^^ (rotr x 19) ^^^ (x >>> 10)

/-- The 64 SHA-256 round constants of FIPS 180-4, in decimal. -/
def shaK : List Nat :=
  [1116352408, 1899447441, 3049323471, 3921009573, 961987163, 1508970993,
   2453635748, 2870763221, 3624381080, 310598401, 607225278, 1426881987,
   1925078388, 2162078206, 2614888103, 3248222580, 3835390401, 4022224774,
   264347078, 604807628, 770255983, 1249150122, 1555081692, 1996064986,
   2554220882, 2821834349, 2952996808, 3210313671, 3336571891, 3584528711,
   113926993, 338241895, 666307205, 773529912, 1294757372, 1396182291,
   1695183700, 1986661051, 2177026350, 2456956037, 2730485921, 2820302411,
   3259730800, 3345764771, 3516065817, 3600352804, 4094571909, 275423344,
   430227734, 506948616, 659060556, 883997877, 958139571, 1322822218,
   1537002063, 1747873779, 1955562222, 2024104815, 2227730452, 2361852424,
   2428436474, 2756734187, 3204031479, 3329325298]

/-- The SHA-256 initial hash value of FIPS 180-4, in decimal. -/
def shaH0 : List Nat :=
  [1779033703, 3144134277, 1013904242, 2773480762,
   1359893119, 2600822924, 528734635, 1541459225]

/-- Group a byte list into big-endian 32-bit words. -/
def bytesToWords : List Nat → List Nat
  | b0 :: b1 :: b2 :: b3 :: rest => (((b0 * 256 + b1) * 256 + b2) * 256 + b3) :: bytesToWords rest
  | _ => []

/-- Split a byte list into 64-byte blocks; the fuel bounds the recursion depth
so the definition is structurally recursive and kernel-reducible. -/
def toBlocksAux : Nat → List Nat → List (List Nat)
  | 0, _ => []
  | _ + 1, [] => []
  | fuel + 1, b :: rest => ((b :: rest).take 64) :: toBlocksAux fuel ((b :: rest).drop 64)

/-- Split a byte list into 64-byte blocks. -/
def toBlocks (l : List Nat) : List (List Nat) := toBlocksAux l.length l

/-- SHA-256 message padding: append 0x80, zeros, and the 64-bit big-endian bit length. -/
def shaPad (msg : List Nat) : List Nat :=
  let len := msg.length
  let zeros := (64 - (len + 9) % 64) % 64
  let bitLen := len * 8
  msg ++ [0x80] ++ List.replicate zeros 0 ++
    [w32 (bitLen >>> 56) % 256, (bitLen >>> 48) % 256, (bitLen >>> 40) % 256, (bitLen >>> 32) % 256,
     (bitLen >>> 24) % 256, (bitLen >>> 16) % 256, (bitLen >>> 8) % 256, bitLen % 256]

/-- Extend sixteen message-schedule words to sixty-four. -/
def shaSchedule (ws : List Nat) : List Nat :=
  (List.range 48).foldl
    (fun acc _ =>
      let t := acc.length
      acc ++ [w32 (smallSigma1 (acc.getD (t - 2) 0) + acc.getD (t - 7) 0 +
                   smallSigma0 (acc.getD (t - 15) 0) + acc.getD (t - 16) 0)])
    ws

/-- One SHA-256 round: update the eight-word working state with Kt + Wt. -/
def shaRound (st : List Nat) (kw : Nat × Nat) : List Nat :=
  match st with
  | [a, b, c, d, e, f, g, h] =>
    let t1 := w32 (h + bigSigma1 e + shaCh e f g + kw.1 + kw.2)
    let t2 := w32 (bigSigma0 a + shaMaj a b c)
    [w32 (t1 + t2), a, b, c, w32 (d + t1), e, f, g]
  | other => other

/-- Compress one 512-bit block into the running hash. -/
def shaCompress (hsh : List Nat) (block : List Nat) : List Nat :=
  let ws := shaSchedule (bytesToWords block)
  let st := (shaK.zip ws).foldl (fun s kw => shaRound s kw) hsh
  (hsh.zip st).map (fun p => w32 (p.1 + p.2))

/-- SHA-256 of a byte list, as a list of 32 bytes. -/
def sha256 (msg : List Nat) : List Nat :=
  let final := (toBlocks (shaPad msg)).foldl shaCompress shaH0
  final.flatMap (fun w => [(w >>> 24) % 256, (w >>> 16) % 256, (w >>> 8) % 256, w % 256])

/-- HMAC-SHA256 (RFC 2104): hash long keys, pad to the 64-byte block size,
inner hash with the 0x36 pad, outer hash with the 0x5c pad. -/
def hmacSha256 (key msg : List Nat) : List Nat :=
  let k0 := if 64 < key.length then sha256 key else key
  let kPad := k0 ++ List.replicate (64 - k0.length) 0
  let inner := sha256 ((kPad.map (fun b => b ^^^ 0x36)) ++ msg)
  sha256 ((kPad.map (fun b => b ^^^ 0x5c)) ++ inner)

/-- The sixteen lowercase hexadecimal digits. -/
def hexDigits : List Char := "0123456789abcdef".data

/-- The lowercase hexadecimal digit of a nibble. -/
def hexChar (n : Nat) : Char := hexDigits.getD (n % 16) '0'

/-- Lowercase hexadecimal encoding of a byte list, high nibble first,
as produced by Node's `digest('hex')`. -/
def hexEncode (bs : List Nat) : List Char :=
  bs.flatMap (fun b => [hexChar (b / 16), hexChar (b % 16)])

/-- UTF-8 encoding of one character, as a list of bytes. -/
def utf8Bytes (c : Char) : List Nat :=
  let n := c.toNat
  if n < 0x80 then [n]
  else if n < 0x800 then [0xc0 ||| (n >>> 6), 0x80 ||| (n &&& 0x3f)]
  else if n < 0x10000 then
    [0xe0 ||| (n >>> 12), 0x80 ||| ((n >>> 6) &&& 0x3f), 0x80 ||| (n &&& 0x3f)]
  else
    [0xf0 ||| (n >>> 18), 0x80 ||| ((n >>> 12) &&& 0x3f), 0x80 ||| ((n >>> 6) &&& 0x3f),
     0x80 ||| (n &&& 0x3f)]

/-- UTF-8 bytes of a string, as Node interprets string inputs to `hmac.update`
and `createHmac`. -/
def strBytes (s : String) : List Nat := s.data.flatMap utf8Bytes

/-- The lowercase hex HMAC-SHA256 digest of `payload` keyed by `secret`:
`crypto.createHmac('sha256', secret); hmac.update(payload); hmac.digest('hex')`. -/
def hmacSha256Hex (secret payload : String) : String :=
  String.mk (hexEncode (hmacSha256 (strBytes secret) (strBytes payload)))

/-- `WebhooksResource.verifySignature` (src/index.js lines 258-264): compute the
keyed digest of the payload and compare it with the supplied signature for
exact string equality. -/
def verifySignature (payload signature secret : String) : Bool :=
  hmacSha256Hex secret payload == signature

/-- JSON values as decoded by `response.json()`; numbers are modelled as
integers, which covers every value the claims and the spec's examples use. -/
inductive Json where
  | null
  | bool (b : Bool)
  | num (n : Int)
  | str (s : String)
  | arr (elems : List Json)
  | obj (fields : List (String × Json))

/-- JavaScript truthiness of a JSON value, as used by `json.error || ...`
and `if (data)`. -/
def jsTruthy : Json → Bool
  | .null => false
  | .bool b => b
  | .num n => n != 0
  | .str s => s != ""
  | .arr _ => true
  | .obj _ => true

mutual

/-- JavaScript string coercion `String(v)` of a JSON value, as applied by the
`Error` constructor to a non-string message; array elements that are `null`
coerce to the empty string inside a joined array. -/
def jsToString : Json → String
  | .null => "null"
  | .bool b => if b then "true" else "false"
  | .num n => toString n
  | .str s => s
  | .arr es => String.intercalate "," (jsToStringElems es)
  | .obj _ => "[object Object]"

def jsToStringElems : List Json → List String
  | [] => []
  | .null :: rest => "" :: jsToStringElems rest
  | j :: rest => jsToString j :: jsToStringElems rest

end

/-- JSON string literal escaping as performed by `JSON.stringify`. -/
def jsonEscape (c : Char) : List Char :=
  if c = '"' then ['\\', '"']
  else if c = '\\' then ['\\', '\\']
  else if c = '\n' then ['\\', 'n']
  else if c = '\t' then ['\\', 't']
  else if c = '\r' then ['\\', 'r']
  else if c = '\x08' then ['\\', 'b']
  else if c = '\x0c' then ['\\', 'f']
  else if c.toNat < 0x20 then
    ['\\', 'u', '0', '0', hexChar (c.toNat / 16), hexChar (c.toNat % 16)]
  else [c]

/-- JSON string literal as produced by `JSON.stringify` for a string value. -/
def jsonQuote (s : String) : String :=
  String.mk ('"' :: s.data.flatMap jsonEscape ++ ['"'])

mutual

/-- `JSON.stringify` on a JSON value. -/
def stringify : Json → String
  | .null => "null"
  | .bool b => if b then "true" else "false"
  | .num n => toString n
  | .str s => jsonQuote s
  | .arr es => "[" ++ String.intercalate "," (stringifyElems es) ++ "]"
  | .obj fs => "\x7b" ++ String.intercalate "," (stringifyFields fs) ++ "\x7d"

def stringifyElems : List Json → List String
  | [] => []
  | j :: rest => stringify j :: stringifyElems rest

def stringifyFields : List (String × Json) → List String
  | [] => []
  | (k, v) :: rest => (jsonQuote k ++ ":" ++ stringify v) :: stringifyFields rest

end

/-- The decoded `error` field of a JSON value: the binding of the key
`"error"` when the value is an object, and `undefined` (here `none`)
otherwise.  Objects produced by `JSON.parse` have unique keys, so taking the
first binding is exact. -/
def errorFieldOf : Json → Option Json
  | .obj fs => (fs.find? (fun p => p.1 == "error")).map (fun p => p.2)
  | _ => none

/-- JavaScript property access `json.error`: throws a TypeError when `json`
is `null`, and yields the field (or `undefined`, here `none`) otherwise. -/
def errAccess : Json → Except String (Option Json)
  | .null => .error "Cannot read properties of null (reading 'error')"
  | j => .ok (errorFieldOf j)

/-- The error type `DomainFlowError` (src/index.js lines 297-304): message,
nullable numeric status code, nullable decoded response body. -/
structure DomainFlowError where
  message : String
  statusCode : Option Nat
  response : Option Json

/-- `response.ok` per the WHATWG fetch specification: status in 200..299. -/
def respOk (status : Nat) : Bool := 200 ≤ status && status ≤ 299

/-- Outcome of `await fetch(url, options)` followed by
`await response.json()`: the fetch itself may reject (transport failure),
the body may fail to decode as JSON (the `.json()` promise rejects with a
decode error's message), or a response with a decoded body is obtained. -/
inductive FetchOutcome where
  | transportError (msg : String)
  | decodeError (status : Nat) (msg : String)
  | response (status : Nat) (body : Json)

/-- The try/catch normalisation in `DomainFlow._request`
(src/index.js lines 52-70): a rejected fetch or a rejected `.json()` is
caught and rethrown as `DomainFlowError(error.message, null, null)`; a
non-ok response throws
`DomainFlowError(json.error || 'API request failed', response.status, json)`
(where `json.error` on a `null` body itself throws a TypeError that the
catch converts to `DomainFlowError(message, null, null)`); an ok response
returns the decoded body verbatim. -/
def requestOutcome : FetchOutcome → Except DomainFlowError Json
  | .transportError m => .error ⟨m, none, none⟩
  | .decodeError _ m => .error ⟨m, none, none⟩
  | .response status json =>
    if respOk status then .ok json
    else
      match errAccess json with
      | .error m => .error ⟨m, none, none⟩
      | .ok field =>
        let msg := match field with
          | some v => if jsTruthy v then jsToString v else "API request failed"
          | none => "API request failed"
        .error ⟨msg, some status, some json⟩

/-- The message the amended claim assigns to a non-success response with a
decodable non-null body: the `error` field when it is present with a truthy
value (coerced to a string), and the generic fallback otherwise. -/
def claimedErrMessage (j : Json) : String :=
  match errorFieldOf j with
  | some v => if jsTruthy v then jsToString v else "API request failed"
  | none => "API request failed"

/-- JavaScript truthiness of an optional string, as used by `if (!apiKey)`,
`options.baseUrl || ...` and `if (params.tenantId)`: `undefined` and the
empty string are falsy. -/
def jsTruthyOptStr : Option String → Bool
  | none => false
  | some s => s != ""

/-- The options bag accepted by the `DomainFlow` constructor. -/
structure DomainFlowOptions where
  baseUrl : Option String
  timeout : Option Nat

/-- The client configuration fixed by the `DomainFlow` constructor. -/
structure DomainFlowClient where
  apiKey : String
  baseUrl : String
  timeout : Nat
deriving DecidableEq

/-- The `DomainFlow` constructor (src/index.js lines 16-30): a falsy
`apiKey` throws `Error('DomainFlow API key is required')` synchronously;
otherwise the configuration is fixed with defaults
`baseUrl = 'https://api.domainflow.com'` and `timeout = 30000`.  The
constructor is pure in this embedding: no request value is ever produced
by it, matching the absence of any network activity in the source. -/
def mkDomainFlow (apiKey : Option String) (options : DomainFlowOptions) :
    Except String DomainFlowClient :=
  if !(jsTruthyOptStr apiKey) then .error "DomainFlow API key is required"
  else .ok ⟨apiKey.getD "",
            (if jsTruthyOptStr options.baseUrl then options.baseUrl.getD ""
             else "https://api.domainflow.com"),
            (match options.timeout with
             | some t => if t != 0 then t else 30000
             | none => 30000)⟩

/-- An outbound HTTP request as assembled by `_request`. -/
structure HttpRequest where
  url : String
  method : String
  headers : List (String × String)
  body : Option String

/-- Request assembly in `DomainFlow._request` (src/index.js lines 36-50):
the URL is the base URL with the path appended, headers carry the API key
and the JSON content type, and a truthy `data` argument is serialised with
`JSON.stringify` into the body. -/
def buildRequest (c : DomainFlowClient) (method path : String) (data : Option Json) :
    HttpRequest :=
  ⟨c.baseUrl ++ path, method,
   [("x-api-key", c.apiKey), ("Content-Type", "application/json")],
   match data with
   | some d => if jsTruthy d then some (stringify d) else none
   | none => none⟩

/-- The value of the first header with the given name. -/
def headerValue (req : HttpRequest) (k : String) : Option String :=
  (req.headers.find? (fun p => p.1 == k)).map (fun p => p.2)

/-- The uppercase hexadecimal digits, used by percent-encoding. -/
def upperHexDigits : List Char := "0123456789ABCDEF".data

/-- The uppercase hexadecimal digit of a nibble. -/
def upperHexChar (n : Nat) : Char := upperHexDigits.getD (n % 16) '0'

/-- One byte under the `application/x-www-form-urlencoded` serialiser used
by `URLSearchParams.toString()`: ASCII alphanumerics and `*`, `-`, `.`, `_`
pass through, space becomes `+`, and every other byte becomes `%XX` with
uppercase hex. -/
def formEncodeByte (b : Nat) : List Char :=
  if (0x30 ≤ b && b ≤ 0x39) || (0x41 ≤ b && b ≤ 0x5a) || (0x61 ≤ b && b ≤ 0x7a)
      || b == 0x2a || b == 0x2d || b == 0x2e || b == 0x5f then
    [Char.ofNat b]
  else if b == 0x20 then ['+']
  else ['%', upperHexChar (b / 16), upperHexChar (b % 16)]

/-- `application/x-www-form-urlencoded` serialisation of a string. -/
def formEncode (s : String) : String :=
  String.mk ((strBytes s).flatMap formEncodeByte)

/-- Join serialised `key=value` pairs with `&`, as `URLSearchParams` does. -/
def joinAmp : List String → String
  | [] => ""
  | [x] => x
  | x :: xs => x ++ "&" ++ joinAmp xs

/-- `URLSearchParams.toString()` on an appended list of pairs. -/
def searchParamsToString (ps : List (String × String)) : String :=
  joinAmp (ps.map (fun p => formEncode p.1 ++ "=" ++ formEncode p.2))

/-- The optional filters accepted by `DomainsResource.list`. -/
structure ListDomainsParams where
  tenantId : Option String
  status : Option String

/-- The request path built by `DomainsResource.list` (src/index.js lines
114-121): truthy `tenantId` and `status` filters are appended to a
`URLSearchParams` in that order, and the serialised query is attached after
`?` only when it is a truthy (non-empty) string. -/
def domainsListPath (params : ListDomainsParams) : String :=
  let qp := (if jsTruthyOptStr params.tenantId then [("tenant_id", params.tenantId.getD "")] else [])
            ++ (if jsTruthyOptStr params.status then [("status", params.status.getD "")] else [])
  let qs := searchParamsToString qp
  "/api/domain" ++ (if qs != "" then "?" ++ qs else "")

/-- Modelled from the claim's words for comparison with `domainsListPath`:
one `key=value` pair per provided filter (`tenant_id` for `tenantId`,
`status` for `status`, values serialised by the form encoder), in that
order. -/
def listClaimPairs (params : ListDomainsParams) : List String :=
  (match params.tenantId with
   | some v => ["tenant_id" ++ "=" ++ formEncode v]
   | none => []) ++
  (match params.status with
   | some v => ["status" ++ "=" ++ formEncode v]
   | none => [])

/-- Modelled from the claim's words for comparison with `domainsListPath`:
`/api/domain` followed by the pairs joined with `&`, prefixed with `?` only
if at least one filter is present. -/
def listClaimPath (params : ListDomainsParams) : String :=
  "/api/domain" ++
    (if listClaimPairs params = [] then ""
     else "?" ++ joinAmp (listClaimPairs params))

theorem stringData_mk (l : List Char) : (String.mk l).data = l := rfl

theorem hexChar_mem_hexDigits (n : Nat) : hexChar n ∈ hexDigits := by
  have hlt : n % 16 < 16 := Nat.mod_lt _ (by decide)
  have hball : ∀ k, k < 16 → hexDigits.getD k '0' ∈ hexDigits := by decide
  exact hball (n % 16) hlt

theorem hexEncode_mem (bs : List Nat) : ∀ c ∈ hexEncode bs, c ∈ hexDigits := by
  intro c hc
  rcases List.mem_flatMap.mp hc with ⟨b, _, hcb⟩
  simp only [List.mem_cons, List.not_mem_nil, or_false] at hcb
  rcases hcb with h | h
  · exact h ▸ hexChar_mem_hexDigits _
  · exact h ▸ hexChar_mem_hexDigits _

theorem toUpper_ne_of_hex_alpha :
    ∀ c ∈ hexDigits, c.isAlpha = true → Char.toUpper c ≠ c := by decide

theorem map_toUpper_ne (l : List Char) (hmem : ∀ c ∈ l, c ∈ hexDigits)
    (halpha : ∃ c ∈ l, c.isAlpha = true) : l.map Char.toUpper ≠ l := by
  induction l with
  | nil => simp at halpha
  | cons a t ih =>
    intro heq
    rw [List.map_cons, List.cons_eq_cons] at heq
    rcases halpha with ⟨c, hc, hca⟩
    rcases List.mem_cons.mp hc with rfl | hct
    · exact toUpper_ne_of_hex_alpha c (hmem c (List.mem_cons_self _ _)) hca heq.1
    · exact ih (fun d hd => hmem d (List.mem_cons_of_mem _ hd)) ⟨c, hct, hca⟩ heq.2

/-- C1: for every payload string and every secret, calling `verifySignature`
with the payload, the lowercase hexadecimal encoding of
HMAC-SHA256(secret, payload) as the signature, and the secret returns
`true`. -/
theorem spec_c1_verify_accepts_valid_signature (payload secret : String) :
    verifySignature payload (hmacSha256Hex secret payload) secret = true := by
  simp [verifySignature]

/-- C2: `verifySignature` returns `true` exactly when the supplied signature
string equals the lowercase hex HMAC-SHA256 digest of the payload under the
secret; any signature differing in any character (a flipped character, or a
digest of a different payload) yields `false`. -/
theorem spec_c2_verify_iff_exact_equality (payload signature secret : String) :
    verifySignature payload signature secret = true ↔
      signature = hmacSha256Hex secret payload := by
  simp [verifySignature]
  exact eq_comm

/-- C9: signature comparison is case-sensitive: whenever the lowercase hex
digest contains an alphabetic character, supplying the uppercase form of the
correct digest makes `verifySignature` return `false`. -/
theorem spec_c9_verify_rejects_uppercase (payload secret : String)
    (h : ∃ c ∈ (hmacSha256Hex secret payload).data, c.isAlpha = true) :
    verifySignature payload
      (String.mk ((hmacSha256Hex secret payload).data.map Char.toUpper)) secret = false := by
  have h1 : hmacSha256Hex secret payload =
      String.mk (hexEncode (hmacSha256 (strBytes secret) (strBytes payload))) := rfl
  have hne : hmacSha256Hex secret payload ≠
      String.mk ((hmacSha256Hex secret payload).data.map Char.toUpper) := by
    rw [h1, stringData_mk] at h ⊢
    intro heq
    have hlist := congrArg String.data heq
    rw [stringData_mk, stringData_mk] at hlist
    exact map_toUpper_ne _ (hexEncode_mem _) h hlist.symm
  exact beq_eq_false_iff_ne.mpr hne

set_option maxRecDepth 8000 in
theorem spec_c9_witness :
    (∃ c ∈ (hmacSha256Hex "k" "x").data, c.isAlpha = true) ∧
    verifySignature "x"
      (String.mk ((hmacSha256Hex "k" "x").data.map Char.toUpper)) "k" = false :=
  ⟨by decide, spec_c9_verify_rejects_uppercase "x" "k" (by decide)⟩

/-- C4: a transport failure (fetch rejects; network error, timeout, DNS
failure) yields a `DomainFlowError` whose statusCode and response are both
null and whose message is the underlying failure's message. -/
theorem spec_c4_transport_failure (msg : String) :
    requestOutcome (.transportError msg) = .error ⟨msg, none, none⟩ := rfl

/-- C5 (counterexample): a 404 response whose body fails to decode as JSON
does NOT carry the response's status code: the decode failure is caught by
the generic catch-all, so the `DomainFlowError` has statusCode `none`, not
`some 404` as the claim states. -/
theorem spec_c5_counterexample :
    requestOutcome (.decodeError 404 "Unexpected end of JSON input")
      = .error ⟨"Unexpected end of JSON input", none, none⟩ ∧
    (none : Option Nat) ≠ some 404 :=
  ⟨rfl, by decide⟩

/-- C5 (amended): a non-success response whose body fails to decode as JSON
yields a `DomainFlowError` whose response is null and whose statusCode is
also null, carrying the decode failure's message, rather than propagating a
secondary decode error. -/
theorem spec_c5_decode_failure (status : Nat) (msg : String) :
    requestOutcome (.decodeError status msg) = .error ⟨msg, none, none⟩ := rfl

/-- C3 (counterexample): the claim fails on two decodable-JSON error bodies.
With body `{"error": ""}` the `error` field is present, but `'' || fallback`
is falsy in JavaScript, so the message is the generic fallback, not the
field's value `""`.  With body `null` (decodable JSON), `json.error` throws
a TypeError that the catch-all converts to a `DomainFlowError` with
statusCode null and response null, not statusCode 404 and the body. -/
theorem spec_c3_counterexample :
    requestOutcome (.response 404 (Json.obj [("error", Json.str "")]))
      = .error ⟨"API request failed", some 404, some (Json.obj [("error", Json.str "")])⟩ ∧
    "API request failed" ≠ "" ∧
    requestOutcome (.response 404 Json.null)
      = .error ⟨"Cannot read properties of null (reading 'error')", none, none⟩ :=
  ⟨rfl, by decide, rfl⟩

/-- C3 (amended): when the remote responds with a non-success status and a
decodable, non-null JSON body, the operation fails with a `DomainFlowError`
whose statusCode is the response status, whose response is the decoded
body, and whose message is the body's `error` field when that field is
present with a truthy value, and the generic fallback otherwise. -/
theorem spec_c3_http_error (status : Nat) (j : Json)
    (hst : respOk status = false) (hj : j ≠ Json.null) :
    requestOutcome (.response status j)
      = .error ⟨claimedErrMessage j, some status, some j⟩ := by
  have haccess : errAccess j = .ok (errorFieldOf j) := by
    cases j with
    | null => exact absurd rfl hj
    | bool b => rfl
    | num n => rfl
    | str s => rfl
    | arr es => rfl
    | obj fs => rfl
  simp only [requestOutcome, hst, Bool.false_eq_true, if_false, haccess, claimedErrMessage]

theorem spec_c3_witness :
    respOk 404 = false ∧
    requestOutcome (.response 404 (Json.obj [("error", Json.str "not found")]))
      = .error ⟨"not found", some 404, some (Json.obj [("error", Json.str "not found")])⟩ := by
  refine ⟨by decide, ?_⟩
  have h := spec_c3_http_error 404 (Json.obj [("error", Json.str "not found")])
    (by decide) (by intro hx; cases hx)
  rw [h]
  simp [claimedErrMessage, errorFieldOf, jsTruthy, jsToString]

theorem spec_c5_witness :
    requestOutcome (.decodeError 500 "Unexpected token < in JSON at position 0")
      = .error ⟨"Unexpected token < in JSON at position 0", none, none⟩ :=
  spec_c5_decode_failure 500 "Unexpected token < in JSON at position 0"

/-- C7: constructing the client without an API key fails immediately with the
distinct construction-time error, before any network activity (the
constructor is a pure function producing no request); constructing it with
a (non-empty) API key succeeds, likewise without any network call. -/
theorem spec_c7_constructor (opts : DomainFlowOptions) (k : String) (hk : k ≠ "") :
    mkDomainFlow none opts = .error "DomainFlow API key is required" ∧
    (mkDomainFlow (some k) opts).isOk = true := by
  constructor
  · rfl
  · have ht : jsTruthyOptStr (some k) = true := by
      simp [jsTruthyOptStr, hk]
    simp [mkDomainFlow, ht, Except.isOk, Except.toBool]

theorem spec_c7_witness :
    mkDomainFlow none ⟨none, none⟩ = .error "DomainFlow API key is required" ∧
    (mkDomainFlow (some "test-api-key") ⟨none, none⟩).isOk = true :=
  spec_c7_constructor ⟨none, none⟩ "test-api-key" (by decide)

/-- C8: every request assembled by `_request` carries the header `x-api-key`
set to the configured API key, and carries `Content-Type: application/json`
whenever a request body is present. -/
theorem spec_c8_headers (c : DomainFlowClient) (method path : String) (data : Option Json) :
    headerValue (buildRequest c method path data) "x-api-key" = some c.apiKey ∧
    ((buildRequest c method path data).body.isSome = true →
      headerValue (buildRequest c method path data) "Content-Type" = some "application/json") := by
  constructor
  · rfl
  · intro _
    rfl

theorem spec_c8_witness :
    headerValue (buildRequest ⟨"secret-key", "https://api.domainflow.com", 30000⟩ "POST"
      "/api/domain/add" (some (Json.obj [("domain", Json.str "app.customer.com")]))) "x-api-key"
      = some "secret-key" ∧
    headerValue (buildRequest ⟨"secret-key", "https://api.domainflow.com", 30000⟩ "POST"
      "/api/domain/add" (some (Json.obj [("domain", Json.str "app.customer.com")]))) "Content-Type"
      = some "application/json" :=
  ⟨(spec_c8_headers ⟨"secret-key", "https://api.domainflow.com", 30000⟩ "POST"
      "/api/domain/add" (some (Json.obj [("domain", Json.str "app.customer.com")]))).1,
   (spec_c8_headers ⟨"secret-key", "https://api.domainflow.com", 30000⟩ "POST"
      "/api/domain/add" (some (Json.obj [("domain", Json.str "app.customer.com")]))).2 rfl⟩

theorem str_append_ne_empty (a b : String) (h : a ≠ "") : a ++ b ≠ "" := by
  intro hab
  apply h
  have hd := congrArg String.data hab
  rw [String.data_append] at hd
  rcases List.append_eq_nil.mp hd with ⟨ha, _⟩
  exact String.ext ha

/-- C6: the request path built by `list` is `/api/domain` followed by one
`key=value` pair per provided filter (`tenant_id` for `tenantId`, `status`
for `status`, values under the form serialiser), joined with `&`, prefixed
with `?` only if at least one filter is present; in particular no filters
produce `/api/domain` and `{status: "verified"}` alone produces
`/api/domain?status=verified`.  The provided values are assumed non-empty;
the empty string is treated as absent (see the C10 theorem). -/
theorem spec_c6_list_query (t s : Option String)
    (ht : ∀ v, t = some v → v ≠ "") (hs : ∀ v, s = some v → v ≠ "") :
    domainsListPath ⟨t, s⟩ = listClaimPath ⟨t, s⟩ ∧
    domainsListPath ⟨none, none⟩ = "/api/domain" ∧
    domainsListPath ⟨none, some "verified"⟩ = "/api/domain?status=verified" := by
  refine ⟨?_, by decide, by decide⟩
  have hfe_t : formEncode "tenant_id" = "tenant_id" := by decide
  have hfe_s : formEncode "status" = "status" := by decide
  cases t with
  | none =>
    cases s with
    | none => rfl
    | some v =>
      have hv : v ≠ "" := hs v rfl
      have htr : jsTruthyOptStr (some v) = true := bne_iff_ne.mpr hv
      have hne : (("status" ++ "=" ++ formEncode v) != "") = true :=
        bne_iff_ne.mpr (str_append_ne_empty _ _ (str_append_ne_empty _ _ (by decide)))
      simp only [domainsListPath, listClaimPath, listClaimPairs, searchParamsToString,
        htr, if_true, List.nil_append, List.map, joinAmp, hfe_s, hne]
      simp
      rw [if_neg (str_append_ne_empty _ _ (by decide : ("status=" : String) ≠ ""))]
  | some u =>
    have hu : u ≠ "" := ht u rfl
    have hut : jsTruthyOptStr (some u) = true := bne_iff_ne.mpr hu
    cases s with
    | none =>
      have hne : (("tenant_id" ++ "=" ++ formEncode u) != "") = true :=
        bne_iff_ne.mpr (str_append_ne_empty _ _ (str_append_ne_empty _ _ (by decide)))
      simp only [domainsListPath, listClaimPath, listClaimPairs, searchParamsToString,
        hut, if_true, List.append_nil, List.map, joinAmp, hfe_t, hne]
      simp
      rw [if_neg (str_append_ne_empty _ _ (by decide : ("tenant_id=" : String) ≠ ""))]
    | some v =>
      have hv : v ≠ "" := hs v rfl
      have hvt : jsTruthyOptStr (some v) = true := bne_iff_ne.mpr hv
      have hne : (("tenant_id" ++ "=" ++ formEncode u ++ "&" ++ ("status" ++ "=" ++ formEncode v)) != "") = true :=
        bne_iff_ne.mpr (str_append_ne_empty _ _ (str_append_ne_empty _ _
          (str_append_ne_empty _ _ (str_append_ne_empty _ _ (by decide)))))
      simp only [domainsListPath, listClaimPath, listClaimPairs, searchParamsToString,
        hut, hvt, if_true, List.cons_append, List.nil_append, List.map, joinAmp,
        hfe_t, hfe_s, hne]
      simp
      rw [if_neg (str_append_ne_empty _ _
        (str_append_ne_empty _ _
          (str_append_ne_empty _ _ (by decide : ("tenant_id=" : String) ≠ ""))))]

theorem spec_c6_witness :
    domainsListPath ⟨some "tnt_1", some "verified"⟩ = listClaimPath ⟨some "tnt_1", some "verified"⟩ ∧
    domainsListPath ⟨none, none⟩ = "/api/domain" ∧
    domainsListPath ⟨none, some "verified"⟩ = "/api/domain?status=verified" :=
  spec_c6_list_query (some "tnt_1") (some "verified")
    (fun v hv => by cases hv; decide) (fun v hv => by cases hv; decide)

/-- C10: `list` treats empty-string filter values as absent: an empty
`tenantId` or `status` contributes no `key=value` pair, and with both empty
the path is `/api/domain` with no query string. -/
theorem spec_c10_empty_filters_absent :
    (∀ s, domainsListPath ⟨some "", s⟩ = domainsListPath ⟨none, s⟩) ∧
    (∀ t, domainsListPath ⟨t, some ""⟩ = domainsListPath ⟨t, none⟩) ∧
    domainsListPath ⟨some "", some ""⟩ = "/api/domain" := by
  refine ⟨fun s => rfl, fun t => ?_, by decide⟩
  cases t with
  | none => rfl
  | some u => rfl
